import Mathlib

/-!
Verification of the salt-hpilo execution module (`hpilo.py`).

The module is a thin Salt execution-module adapter around the `python-hpilo`
library: a credential resolver (`_login`) plus seven operation dispatchers
(`get_power_status`, `power_on`, `power_off`, `list_users`, `product_info`,
`network_settings`, `get_boot_order`).  We embed the module shallowly:

* Python values that flow through the module become the inductive `Value`
  (None, bool, str, list, dict-as-association-list).
* Exceptions become an explicit `Except PyErr` result.  `PyErr.nameError`
  models a `NameError` raised for an undefined global name, `PyErr.keyError`
  and `PyErr.typeError` model subscript failures.  An `hpilo.IloError` raised
  by the remote library is never a `PyErr`: it enters the embedding as the
  `.error` branch of the remote oracle and becomes a `PyErr` only if the
  Python code would let it escape.
* The effect of a dispatcher (clients constructed, error log lines emitted,
  power-change commands issued to the BMC) is collected in a `Trace`.
* The behaviour of the remote BMC and of Salt's `config.option` lookup is a
  parameter (`RemoteOracle` / `Env`), so theorems quantify over all remote
  behaviours.
-/

namespace SaltHpilo

/-- Python values handled by the module: `None`, booleans, strings, lists and
dicts.  A dict is an association list in insertion order; all dicts built by
the module have pairwise distinct keys. -/
inductive Value where
  | none : Value
  | bool : Bool → Value
  | str : String → Value
  | list : List Value → Value
  | dict : List (String × Value) → Value
deriving Repr

/-- An association list modelling a Python dict. -/
abbrev Dict := List (String × Value)

/-- Keyword arguments (`**kwargs`) of a dispatcher call. -/
abbrev Kwargs := List (String × Value)

/-- Python exceptions that can escape the embedded code. -/
inductive PyErr where
  | nameError : String → PyErr
  | keyError : String → PyErr
  | typeError : PyErr
deriving Repr, DecidableEq

/-- First-match lookup in a dict, i.e. Python `d[k]`/`d.get(k)` on a dict
whose keys are distinct. -/
def dictGet (d : Dict) (k : String) : Option Value :=
  match d with
  | [] => Option.none
  | (k₀, v₀) :: rest => if k₀ == k then some v₀ else dictGet rest k

/-- Python `k in kwargs`. -/
def hasKey (d : Kwargs) (k : String) : Bool :=
  (dictGet d k).isSome

/-- The remote client handle built by `hpilo.Ilo(**creds, delayed=delay)`:
the resolved credential set plus the deferred-connection flag. -/
structure Client where
  login : Value
  password : Value
  hostname : Value
  delayed : Bool
deriving Repr

/-- Result of one remote-library call: `.error msg` models the library raising
`hpilo.IloError(msg)`. -/
abbrev Remote (α : Type) := Except String α

/-- Behaviour of the remote BMC as seen through the `python-hpilo` client
methods used by the module. -/
structure RemoteOracle where
  get_host_power_status : Remote String
  set_host_power : Bool → Remote Value
  press_pwr_btn : Remote Value
  hold_pwr_btn : Remote Value
  get_all_users : Remote (List Value)
  get_all_user_info : Remote Dict
  get_product_name : Remote Value
  get_fw_version : Remote Dict
  get_asset_tag : Remote Dict
  get_network_settings : Remote Dict
  get_persistent_boot : Remote (List Value)

/-- The ambient Salt environment: `config_option` is
the minion-configuration lookup `__salt__['config.option']`, `oracle` the remote
behaviour behind the constructed client. -/
structure Env where
  config_option : Value → Value
  oracle : RemoteOracle

/-- Observable effects of one dispatcher call: remote client handles
constructed, `log.error` lines emitted, and power-change commands issued to
the BMC (`set_host_power True`, `press_pwr_btn`, `hold_pwr_btn`). -/
structure Trace where
  clients : List Client
  logs : List String
  powerCmds : List String
deriving Repr

/-- The empty trace. -/
def Trace.nil : Trace := ⟨[], [], []⟩

/-- Concatenation of traces (effects of sequential execution). -/
def Trace.app (a b : Trace) : Trace :=
  ⟨a.clients ++ b.clients, a.logs ++ b.logs, a.powerCmds ++ b.powerCmds⟩

/-- Python `str()` as used by the f-strings in the log messages.  The module
only ever formats scalar credential values (hostnames); the list/dict
renderings are abbreviated. -/
def pyStr : Value → String
  | Value.none => "None"
  | Value.bool true => "True"
  | Value.bool false => "False"
  | Value.str s => s
  | Value.list _ => "[...]"
  | Value.dict _ => "\x7b...\x7d"

/-- Python subscript `v[k]`: raises `KeyError` for a missing key and
`TypeError` when `v` is not a dict. -/
def subscript (v : Value) (k : String) : Except PyErr Value :=
  match v with
  | Value.dict d =>
    match dictGet d k with
    | some x => Except.ok x
    | Option.none => Except.error (PyErr.keyError k)
  | _ => Except.error PyErr.typeError

/-- Embedding of `_login(delay=False, **kwargs)` (src/hpilo.py lines 70-92):
resolves the credential set and constructs the `hpilo.Ilo` client.

The first branch is taken when `login`, `password` and `hostname` are all
present in `kwargs`; the source then evaluates `config['login']`, but no name
`config` is defined or injected in the module, so Python raises
`NameError: name 'config' is not defined` before any credential is read. -/
def _login (env : Env) (delay : Bool) (kw : Kwargs) : Except PyErr Client :=
  if hasKey kw "login" && hasKey kw "password" && hasKey kw "hostname" then
    Except.error (PyErr.nameError "config")
  else if hasKey kw "profile" then
    match dictGet kw "profile" with
    | Option.none => Except.error (PyErr.keyError "profile")
    | some pname =>
      let profile := env.config_option pname
      match subscript profile "login" with
      | Except.error e => Except.error e
      | Except.ok l =>
        match subscript profile "password" with
        | Except.error e => Except.error e
        | Except.ok p =>
          match subscript profile "hostname" with
          | Except.error e => Except.error e
          | Except.ok h => Except.ok ⟨l, p, h, delay⟩
  else
    Except.ok ⟨env.config_option (Value.str "hpilo.login"),
               env.config_option (Value.str "hpilo.password"),
               env.config_option (Value.str "hpilo.hostname"), delay⟩

/-- Python truthiness (`if kwargs.get('detailed'):`). -/
def truthy : Value → Bool
  | Value.none => false
  | Value.bool b => b
  | Value.str s => !(s == "")
  | Value.list xs => !xs.isEmpty
  | Value.dict d => !d.isEmpty

/-- Embedding of `get_power_status(**kwargs)` (src/hpilo.py lines 94-106).
On a remote `IloError` it logs and returns `{}`; on success it returns
`{'power': True if pwr == 'ON' else False}`. -/
def get_power_status (env : Env) (kw : Kwargs) : Except PyErr Value × Trace :=
  match _login env false kw with
  | Except.error e => (Except.error e, Trace.nil)
  | Except.ok ilo =>
    let t0 : Trace := ⟨[ilo], [], []⟩
    match env.oracle.get_host_power_status with
    | Except.error m =>
      (Except.ok (Value.dict []),
       ⟨t0.clients,
        ["Failed to get power state of " ++ pyStr ilo.hostname ++ ": " ++ m],
        t0.powerCmds⟩)
    | Except.ok pwr =>
      (Except.ok (Value.dict [("power", Value.bool (pwr == "ON"))]), t0)

/-- Embedding of `power_on(**kwargs)` (src/hpilo.py lines 108-119).
The local `ret = {'power_state': True}` is assigned but never returned: the
success path falls off the end of the function, so Python returns `None`.
The handler clause is `except IloError`, and the bare name `IloError` is
undefined in the module (every other dispatcher writes `hpilo.IloError`), so
when the remote call raises, evaluating the handler raises
`NameError: name 'IloError' is not defined`, which propagates to the caller
and nothing is logged. -/
def power_on (env : Env) (kw : Kwargs) : Except PyErr Value × Trace :=
  match _login env false kw with
  | Except.error e => (Except.error e, Trace.nil)
  | Except.ok ilo =>
    let t0 : Trace := ⟨[ilo], [], ["set_host_power True"]⟩
    match env.oracle.set_host_power true with
    | Except.error _ => (Except.error (PyErr.nameError "IloError"), t0)
    | Except.ok _ => (Except.ok Value.none, t0)

/-- Embedding of `power_off(hold=False, **kwargs)` (src/hpilo.py lines
121-158).  After constructing its own client it calls
`get_power_status(**kwargs)` — which logs in and constructs a second client —
and short-circuits with `ret = {'power_state': False}` when that pre-check
returns a dict whose `'power'` entry equals `False` (Python `None == False`
and `True == False` are both false, so an empty pre-check result does not
short-circuit).  Otherwise it issues `hold_pwr_btn()` or `press_pwr_btn()`;
on success it returns `ret`, and on a remote `IloError` it logs and returns
`{'power_state': None}`. -/
def power_off (env : Env) (hold : Bool) (kw : Kwargs) : Except PyErr Value × Trace :=
  let ret : Value := Value.dict [("power_state", Value.bool false)]
  match _login env false kw with
  | Except.error e => (Except.error e, Trace.nil)
  | Except.ok ilo =>
    let t0 : Trace := ⟨[ilo], [], []⟩
    match get_power_status env kw with
    | (Except.error e, t1) => (Except.error e, t0.app t1)
    | (Except.ok v, t1) =>
      let t := t0.app t1
      let pw : Value :=
        match v with
        | Value.dict d => (dictGet d "power").getD Value.none
        | _ => Value.none
      match pw with
      | Value.bool false => (Except.ok ret, t)
      | _ =>
        let res := if hold then env.oracle.hold_pwr_btn else env.oracle.press_pwr_btn
        let cname := if hold then "hold_pwr_btn" else "press_pwr_btn"
        match res with
        | Except.ok _ => (Except.ok ret, ⟨t.clients, t.logs, t.powerCmds ++ [cname]⟩)
        | Except.error m =>
          (Except.ok (Value.dict [("power_state", Value.none)]),
           ⟨t.clients,
            t.logs ++ ["Failed to power off " ++ pyStr ilo.hostname ++ ": " ++ m],
            t.powerCmds ++ [cname]⟩)

/-- Embedding of `list_users(**kwargs)` (src/hpilo.py lines 160-189).
`kwargs.get('detailed')` truthy selects `get_all_user_info()` (a dict of user
records); otherwise `get_all_users()` (a list of user names).  On a remote
`IloError` it logs and returns `{}`. -/
def list_users (env : Env) (kw : Kwargs) : Except PyErr Value × Trace :=
  match _login env false kw with
  | Except.error e => (Except.error e, Trace.nil)
  | Except.ok ilo =>
    let t0 : Trace := ⟨[ilo], [], []⟩
    let logged : String → Trace := fun m =>
      ⟨t0.clients,
       ["Failed to get all users from " ++ pyStr ilo.hostname ++ ": " ++ m],
       t0.powerCmds⟩
    if truthy ((dictGet kw "detailed").getD Value.none) then
      match env.oracle.get_all_user_info with
      | Except.error m => (Except.ok (Value.dict []), logged m)
      | Except.ok d => (Except.ok (Value.dict d), t0)
    else
      match env.oracle.get_all_users with
      | Except.error m => (Except.ok (Value.dict []), logged m)
      | Except.ok l => (Except.ok (Value.list l), t0)

/-- CPython dict item assignment `d[k] = v` on a dict with distinct keys: an
existing key keeps its position and receives the new value, a new key is
appended at the end. -/
def dictInsert (d : Dict) (k : String) (v : Value) : Dict :=
  match d with
  | [] => [(k, v)]
  | p :: rest => if p.1 == k then (k, v) :: rest else p :: dictInsert rest k v

/-- Python dict unpacking `{**d, **e}`: every entry of `e` is assigned into
`d` in order, so a later source overrides an earlier one. -/
def dictUpdate (d e : Dict) : Dict :=
  match e with
  | [] => d
  | (k, v) :: rest => dictUpdate (dictInsert d k v) rest

/-- Embedding of `product_info(**kwargs)` (src/hpilo.py lines 191-223).
Three remote calls in order (`get_product_name`, `get_fw_version`,
`get_asset_tag`); any `IloError` among them logs and returns `{}` (the log
text repeats the word "version", as in the source).  On success it returns
the dict literal `{'product_name': product_name, **asset_tag, **fw_version}`. -/
def product_info (env : Env) (kw : Kwargs) : Except PyErr Value × Trace :=
  match _login env false kw with
  | Except.error e => (Except.error e, Trace.nil)
  | Except.ok ilo =>
    let t0 : Trace := ⟨[ilo], [], []⟩
    let logged : String → Trace := fun m =>
      ⟨t0.clients,
       ["Failed to get product name and version version from " ++
        pyStr ilo.hostname ++ ": " ++ m],
       t0.powerCmds⟩
    match env.oracle.get_product_name with
    | Except.error m => (Except.ok (Value.dict []), logged m)
    | Except.ok product_name =>
      match env.oracle.get_fw_version with
      | Except.error m => (Except.ok (Value.dict []), logged m)
      | Except.ok fw_version =>
        match env.oracle.get_asset_tag with
        | Except.error m => (Except.ok (Value.dict []), logged m)
        | Except.ok asset_tag =>
          (Except.ok (Value.dict
            (dictUpdate (dictUpdate [("product_name", product_name)] asset_tag)
              fw_version)), t0)

/-- Embedding of `network_settings(**kwargs)` (src/hpilo.py lines 225-249):
passthrough of `get_network_settings()`, logging and returning `{}` on a
remote `IloError`. -/
def network_settings (env : Env) (kw : Kwargs) : Except PyErr Value × Trace :=
  match _login env false kw with
  | Except.error e => (Except.error e, Trace.nil)
  | Except.ok ilo =>
    let t0 : Trace := ⟨[ilo], [], []⟩
    match env.oracle.get_network_settings with
    | Except.error m =>
      (Except.ok (Value.dict []),
       ⟨t0.clients,
        ["Failed to get network settings from " ++ pyStr ilo.hostname ++ ": " ++ m],
        t0.powerCmds⟩)
    | Except.ok ns => (Except.ok (Value.dict ns), t0)

/-- Embedding of `get_boot_order(**kwargs)` (src/hpilo.py lines 251-275):
passthrough of `get_persistent_boot()`, logging and returning `{}` on a
remote `IloError`. -/
def get_boot_order (env : Env) (kw : Kwargs) : Except PyErr Value × Trace :=
  match _login env false kw with
  | Except.error e => (Except.error e, Trace.nil)
  | Except.ok ilo =>
    let t0 : Trace := ⟨[ilo], [], []⟩
    match env.oracle.get_persistent_boot with
    | Except.error m =>
      (Except.ok (Value.dict []),
       ⟨t0.clients,
        ["Failed to get boot order from " ++ pyStr ilo.hostname ++ ": " ++ m],
        t0.powerCmds⟩)
    | Except.ok bs => (Except.ok (Value.list bs), t0)

/-! ### Concrete environments used for closed evaluations and witnesses -/

/-- A minion configuration in the shape documented by the module docstring:
process-wide defaults `hpilo.login` / `hpilo.password` / `hpilo.hostname`
plus one named host profile `server2-ilo`. -/
def cfgDefault : Value → Value
  | Value.str "hpilo.login" => Value.str "Administrator"
  | Value.str "hpilo.password" => Value.str "password"
  | Value.str "hpilo.hostname" => Value.str "server1-ilo.oob.local"
  | Value.str "server2-ilo" =>
    Value.dict [("login", Value.str "Administrator"),
                ("password", Value.str "password_2"),
                ("hostname", Value.str "server2-ilo.oob.local")]
  | _ => Value.none

/-- A remote BMC on which every call succeeds and the host is powered on. -/
def oracleOk : RemoteOracle where
  get_host_power_status := Except.ok "ON"
  set_host_power := fun _ => Except.ok Value.none
  press_pwr_btn := Except.ok Value.none
  hold_pwr_btn := Except.ok Value.none
  get_all_users := Except.ok [Value.str "Administrator", Value.str "operator2"]
  get_all_user_info := Except.ok
    [("Administrator", Value.dict [("user_name", Value.str "Administrator")]),
     ("operator2", Value.dict [("user_name", Value.str "operator2")])]
  get_product_name := Except.ok (Value.str "ProLiant DL380 Gen9")
  get_fw_version := Except.ok
    [("firmware_version", Value.str "2.50"), ("management_processor", Value.str "iLO4")]
  get_asset_tag := Except.ok [("asset_tag", Value.str "A-0001")]
  get_network_settings := Except.ok [("ip_address", Value.str "10.0.0.1")]
  get_persistent_boot := Except.ok [Value.str "hdd", Value.str "network"]

/-- Environment with defaults configured and an all-success remote. -/
def envOk : Env := ⟨cfgDefault, oracleOk⟩

/-- The client that `_login` constructs from the default configuration of
`cfgDefault` (empty kwargs, `delay = False`). -/
def clientDefault : Client :=
  ⟨Value.str "Administrator", Value.str "password",
   Value.str "server1-ilo.oob.local", false⟩

/-- Remote on which the host is powered on but `set_host_power` raises. -/
def envSetPowerFails : Env :=
  ⟨cfgDefault, { oracleOk with set_host_power := fun _ => Except.error "Error communicating with iLO" }⟩

/-! ### Claim theorems -/

/-- Claim C1: the credential resolver is specified to use `login`, `password`
and `hostname` directly when all three are supplied.  The code instead
evaluates `config['login']` where no name `config` exists, so this call path
raises `NameError: name 'config' is not defined` and never produces the
supplied credentials.  This closed evaluation exhibits the failure at a
concrete input. -/
theorem login_explicit_path_raises_undefined_config :
    _login envOk false
      [("login", Value.str "Administrator"), ("password", Value.str "password"),
       ("hostname", Value.str "server1-ilo.oob.local")] =
      Except.error (PyErr.nameError "config") := rfl

/-- Claim C2: the spec requires every dispatcher to catch the remote protocol
error, log hostname plus message, and return an empty mapping.  `power_on`
violates this: its handler names the undefined bare `IloError`, so when the
remote call raises, a `NameError` escapes the dispatcher and nothing is
logged.  This closed evaluation exhibits that at a concrete input. -/
theorem power_on_remote_error_escapes :
    (power_on envSetPowerFails []).1 = Except.error (PyErr.nameError "IloError") ∧
    (power_on envSetPowerFails []).2.logs = [] :=
  ⟨rfl, rfl⟩

/-- Claim C3: `power_on` is specified to return `{'power_state': True}` when
the remote power-on request succeeds.  The code assigns that mapping to a
local but never returns it, so the function falls off the end and returns
Python `None`.  This closed evaluation exhibits that at a concrete input. -/
theorem power_on_success_returns_python_none :
    (power_on envOk []).1 = Except.ok Value.none ∧
    (power_on envOk []).1 ≠ Except.ok (Value.dict [("power_state", Value.bool true)]) := by
  refine ⟨rfl, ?_⟩
  intro h
  have h' : Except.ok Value.none =
      Except.ok (Value.dict [("power_state", Value.bool true)]) := h
  injection h' with h''
  exact Value.noConfusion h''

/-- Claim C4 counterexample: the claim says each single invocation of any
operation, including `power_off`, constructs exactly one remote client.  At a
concrete input, one `power_off` invocation constructs two clients: its own,
and a second one inside the `get_power_status(**kwargs)` pre-check, which
calls `_login` again. -/
theorem power_off_does_not_construct_one_client :
    ¬ ((power_off envOk false []).2.clients.length = 1) := by
  intro h
  have h' : (2 : Nat) = 1 := h
  exact absurd h' (by decide)

/-- Claim C4 (amended): whenever credential resolution succeeds with client
`c`, each of `get_power_status`, `power_on`, `list_users`, `product_info`,
`network_settings` and `get_boot_order` constructs exactly the one client
`c`, while `power_off` constructs exactly two (its own and the one built by
its power-status pre-check, resolved from the same kwargs). -/
theorem dispatchers_construct_clients (env : Env) (kw : Kwargs) (hold : Bool)
    (c : Client) (hl : _login env false kw = Except.ok c) :
    (get_power_status env kw).2.clients = [c] ∧
    (power_on env kw).2.clients = [c] ∧
    (list_users env kw).2.clients = [c] ∧
    (product_info env kw).2.clients = [c] ∧
    (network_settings env kw).2.clients = [c] ∧
    (get_boot_order env kw).2.clients = [c] ∧
    (power_off env hold kw).2.clients = [c, c] := by
  refine ⟨?_, ?_, ?_, ?_, ?_, ?_, ?_⟩
  · unfold get_power_status
    rw [hl]
    cases env.oracle.get_host_power_status <;> rfl
  · unfold power_on
    rw [hl]
    cases env.oracle.set_host_power true <;> rfl
  · unfold list_users
    rw [hl]
    cases truthy ((dictGet kw "detailed").getD Value.none)
    · cases env.oracle.get_all_users <;> rfl
    · cases env.oracle.get_all_user_info <;> rfl
  · unfold product_info
    rw [hl]
    cases env.oracle.get_product_name
    · rfl
    · cases env.oracle.get_fw_version
      · rfl
      · cases env.oracle.get_asset_tag <;> rfl
  · unfold network_settings
    rw [hl]
    cases env.oracle.get_network_settings <;> rfl
  · unfold get_boot_order
    rw [hl]
    cases env.oracle.get_persistent_boot <;> rfl
  · have hgps : (get_power_status env kw).2.clients = [c] := by
      unfold get_power_status
      rw [hl]
      cases env.oracle.get_host_power_status <;> rfl
    unfold power_off
    rw [hl]
    rcases hg : get_power_status env kw with ⟨st, t1⟩
    have ht1 : t1.clients = [c] := by rw [hg] at hgps; exact hgps
    dsimp only
    cases st with
    | error e => simp [Trace.app, ht1]
    | ok v =>
      dsimp only
      split
      · simp [Trace.app, ht1]
      · split <;> simp [Trace.app, ht1]

/-- Witness for the amended claim C4 at a concrete environment. -/
theorem dispatchers_construct_clients_witness :
    (get_power_status envOk []).2.clients = [clientDefault] ∧
    (power_on envOk []).2.clients = [clientDefault] ∧
    (list_users envOk []).2.clients = [clientDefault] ∧
    (product_info envOk []).2.clients = [clientDefault] ∧
    (network_settings envOk []).2.clients = [clientDefault] ∧
    (get_boot_order envOk []).2.clients = [clientDefault] ∧
    (power_off envOk false []).2.clients = [clientDefault, clientDefault] :=
  dispatchers_construct_clients envOk [] false clientDefault rfl

/-- Claim C6: when the remote power-status query succeeds with state string
`s`, the dispatcher returns `{'power': s == "ON"}`; in particular the result
is `{'power': True}` exactly when `s = "ON"`, and `{'power': False}` for any
other string. -/
theorem get_power_status_on_iff (env : Env) (kw : Kwargs) (c : Client) (s : String)
    (hl : _login env false kw = Except.ok c)
    (hs : env.oracle.get_host_power_status = Except.ok s) :
    (get_power_status env kw).1 =
      Except.ok (Value.dict [("power", Value.bool (s == "ON"))]) ∧
    ((get_power_status env kw).1 =
      Except.ok (Value.dict [("power", Value.bool true)]) ↔ s = "ON") := by
  have h1 : (get_power_status env kw).1 =
      Except.ok (Value.dict [("power", Value.bool (s == "ON"))]) := by
    unfold get_power_status
    rw [hl, hs]
  refine ⟨h1, ?_⟩
  rw [h1]
  simp

/-- Witness for claim C6 at a concrete environment whose power state is
the string "ON". -/
theorem get_power_status_on_iff_witness :
    (get_power_status envOk []).1 =
      Except.ok (Value.dict [("power", Value.bool ("ON" == "ON"))]) ∧
    ((get_power_status envOk []).1 =
      Except.ok (Value.dict [("power", Value.bool true)]) ↔ "ON" = "ON") :=
  get_power_status_on_iff envOk [] clientDefault "ON" rfl rfl

/-- Claim C5: when the pre-check power-status query reports the device
already off (the state string is not "ON", so `get_power_status` reports
`power = False`), `power_off` returns `{'power_state': False}` and issues no
power-change command at all. -/
theorem power_off_already_off_short_circuits (env : Env) (kw : Kwargs)
    (hold : Bool) (c : Client) (s : String)
    (hl : _login env false kw = Except.ok c)
    (hs : env.oracle.get_host_power_status = Except.ok s)
    (hoff : s ≠ "ON") :
    (power_off env hold kw).1 =
      Except.ok (Value.dict [("power_state", Value.bool false)]) ∧
    (power_off env hold kw).2.powerCmds = [] := by
  have hb : (s == "ON") = false := by simp [hoff]
  constructor <;>
  · unfold power_off get_power_status
    rw [hl, hs]
    simp only [hb]
    rfl

/-- Witness for claim C5: the state string "OFF" short-circuits. -/
theorem power_off_already_off_short_circuits_witness :
    ((power_off ⟨cfgDefault, { oracleOk with get_host_power_status := Except.ok "OFF" }⟩
        false []).1 =
      Except.ok (Value.dict [("power_state", Value.bool false)]) ∧
    (power_off ⟨cfgDefault, { oracleOk with get_host_power_status := Except.ok "OFF" }⟩
        false []).2.powerCmds = []) :=
  power_off_already_off_short_circuits
    ⟨cfgDefault, { oracleOk with get_host_power_status := Except.ok "OFF" }⟩
    [] false clientDefault "OFF" rfl rfl (by decide)

/-- Environment whose BMC reports power state "ON" but fails the
press-button command. -/
def envPressFails : Env :=
  ⟨cfgDefault, { oracleOk with press_pwr_btn := Except.error "could not press button" }⟩

/-- Environment whose BMC fails the power-status query (so the `power_off`
pre-check yields an empty mapping and the power state is unknown). -/
def envStatusFails : Env :=
  ⟨cfgDefault, { oracleOk with get_host_power_status := Except.error "status timeout" }⟩

/-- Claim C7: when `power_off` reaches the press/hold command (the pre-check
either reported the device on or itself failed) and the command raises the
remote protocol error, the result is the sentinel `{'power_state': None}`,
which differs from the empty mapping returned by the other dispatchers on
failure. -/
theorem power_off_remote_error_returns_sentinel (env : Env) (kw : Kwargs)
    (hold : Bool) (c : Client) (m : String)
    (hl : _login env false kw = Except.ok c)
    (hq : env.oracle.get_host_power_status = Except.ok "ON" ∨
          ∃ me, env.oracle.get_host_power_status = Except.error me)
    (hb : (if hold then env.oracle.hold_pwr_btn else env.oracle.press_pwr_btn) =
      Except.error m) :
    (power_off env hold kw).1 = Except.ok (Value.dict [("power_state", Value.none)]) ∧
    (power_off env hold kw).1 ≠ Except.ok (Value.dict []) := by
  have h1 : (power_off env hold kw).1 =
      Except.ok (Value.dict [("power_state", Value.none)]) := by
    rcases hq with hq | ⟨me, hq⟩ <;>
    · unfold power_off get_power_status
      rw [hl, hq, hb]
      rfl
  refine ⟨h1, ?_⟩
  rw [h1]
  simp

/-- Witness for claim C7: a failing press command on a powered-on host. -/
theorem power_off_remote_error_returns_sentinel_witness :
    (power_off envPressFails false []).1 =
      Except.ok (Value.dict [("power_state", Value.none)]) ∧
    (power_off envPressFails false []).1 ≠ Except.ok (Value.dict []) :=
  power_off_remote_error_returns_sentinel envPressFails [] false clientDefault
    "could not press button" rfl (Or.inl rfl) rfl

/-- Claim C10: when the `power_off` pre-check power-status query itself
fails (it returns the empty mapping, so the power state is unknown),
`power_off` does not short-circuit: it issues exactly the press (or, with
`hold`, the hold) button command. -/
theorem power_off_unknown_state_issues_command (env : Env) (kw : Kwargs)
    (hold : Bool) (c : Client) (m : String)
    (hl : _login env false kw = Except.ok c)
    (hq : env.oracle.get_host_power_status = Except.error m) :
    (get_power_status env kw).1 = Except.ok (Value.dict []) ∧
    (power_off env hold kw).2.powerCmds =
      [if hold then "hold_pwr_btn" else "press_pwr_btn"] := by
  constructor
  · unfold get_power_status
    rw [hl, hq]
  · unfold power_off get_power_status
    rw [hl, hq]
    cases (if hold then env.oracle.hold_pwr_btn else env.oracle.press_pwr_btn) <;> rfl

/-- Witness for claim C10: a failed pre-check still holds the button. -/
theorem power_off_unknown_state_issues_command_witness :
    (get_power_status envStatusFails []).1 = Except.ok (Value.dict []) ∧
    (power_off envStatusFails true []).2.powerCmds =
      [if true then "hold_pwr_btn" else "press_pwr_btn"] :=
  power_off_unknown_state_issues_command envStatusFails [] true clientDefault
    "status timeout" rfl rfl

/-- Claim C8: on success, `list_users` returns the list of user names from
`get_all_users()` when `detailed` is absent or falsy, and the dict of full
per-user records from `get_all_user_info()` when `detailed` is truthy — a
list shape in the first case and a mapping shape in the second. -/
theorem list_users_shape (env : Env) (kw : Kwargs) (c : Client)
    (hl : _login env false kw = Except.ok c) :
    (∀ l, truthy ((dictGet kw "detailed").getD Value.none) = false →
      env.oracle.get_all_users = Except.ok l →
      (list_users env kw).1 = Except.ok (Value.list l)) ∧
    (∀ d, truthy ((dictGet kw "detailed").getD Value.none) = true →
      env.oracle.get_all_user_info = Except.ok d →
      (list_users env kw).1 = Except.ok (Value.dict d)) := by
  constructor
  · intro l ht hr
    unfold list_users
    rw [hl]
    simp only [ht, hr]
    rfl
  · intro d ht hr
    unfold list_users
    rw [hl]
    simp only [ht, hr]
    rfl

/-- Witness for claim C8: summary shape with `detailed` absent, mapping
shape with `detailed=True`, against the same mock environment. -/
theorem list_users_shape_witness :
    (list_users envOk []).1 =
      Except.ok (Value.list [Value.str "Administrator", Value.str "operator2"]) ∧
    (list_users envOk [("detailed", Value.bool true)]).1 =
      Except.ok (Value.dict
        [("Administrator", Value.dict [("user_name", Value.str "Administrator")]),
         ("operator2", Value.dict [("user_name", Value.str "operator2")])]) :=
  ⟨(list_users_shape envOk [] clientDefault rfl).1
      [Value.str "Administrator", Value.str "operator2"] rfl rfl,
   (list_users_shape envOk [("detailed", Value.bool true)] clientDefault rfl).2
      [("Administrator", Value.dict [("user_name", Value.str "Administrator")]),
       ("operator2", Value.dict [("user_name", Value.str "operator2")])] rfl rfl⟩

/-- Last-occurrence lookup in an association list: the value a key holds
after all entries have been assigned in order (the "last-merged" value). -/
def dictGetLast (e : Dict) (k : String) : Option Value :=
  match e with
  | [] => Option.none
  | (k₀, v₀) :: rest =>
    (dictGetLast rest k).or (if k₀ == k then some v₀ else Option.none)

/-- Lookup after one dict assignment: the inserted key reads the new value,
every other key is unchanged. -/
theorem dictGet_dictInsert (d : Dict) (k : String) (v : Value) (k' : String) :
    dictGet (dictInsert d k v) k' = if k == k' then some v else dictGet d k' := by
  induction d with
  | nil => rfl
  | cons p rest ih =>
    rcases p with ⟨k₀, v₀⟩
    simp only [dictInsert]
    by_cases h0 : k₀ = k
    · subst h0
      simp only [beq_self_eq_true, if_true, dictGet]
      by_cases h1 : k₀ = k'
      · simp [h1]
      · simp [h1]
    · have hb : (k₀ == k) = false := by simp [h0]
      simp only [hb, Bool.false_eq_true, if_false, dictGet, ih]
      by_cases h1 : k₀ = k' <;> by_cases h2 : k = k'
      · exact absurd (h1.trans h2.symm) h0
      · simp [h1, h2]
      · simp [h1, h2]
      · simp [h1, h2]

/-- Lookup after unpacking `e` into `d`: an entry of `e` (its last
occurrence) wins over whatever `d` held. -/
theorem dictGet_dictUpdate (e d : Dict) (k : String) :
    dictGet (dictUpdate d e) k = (dictGetLast e k).or (dictGet d k) := by
  induction e generalizing d with
  | nil =>
    simp only [dictUpdate, dictGetLast]
    cases dictGet d k <;> rfl
  | cons p rest ih =>
    rcases p with ⟨k₁, v₁⟩
    simp only [dictUpdate, dictGetLast]
    rw [ih, dictGet_dictInsert]
    cases dictGetLast rest k with
    | some a => simp [Option.or]
    | none =>
      by_cases h : k₁ = k
      · subst h; simp [Option.or]
      · have hb : (k₁ == k) = false := by simp [h]
        simp [Option.or, hb]

/-- Lookup in the singleton dict `{'product_name': pn}`. -/
theorem dictGet_product_name_base (pn : Value) (k : String) :
    dictGet [("product_name", pn)] k =
      (if k = "product_name" then some pn else Option.none) := by
  by_cases h : k = "product_name"
  · subst h; simp [dictGet]
  · simp [dictGet, h, Ne.symm h]

/-- Claim C9: on success, `product_info` returns a single flattened mapping
whose key set is the union of `product_name`, the asset-tag keys and the
firmware-version keys, where a colliding key takes the value of the
last-merged source (`fw_version` over `asset_tag` over the product name). -/
theorem product_info_flattens (env : Env) (kw : Kwargs) (c : Client)
    (pn : Value) (fw atg : Dict)
    (hl : _login env false kw = Except.ok c)
    (h1 : env.oracle.get_product_name = Except.ok pn)
    (h2 : env.oracle.get_fw_version = Except.ok fw)
    (h3 : env.oracle.get_asset_tag = Except.ok atg) :
    ∃ d : Dict, (product_info env kw).1 = Except.ok (Value.dict d) ∧
      (∀ k, dictGet d k =
        (dictGetLast fw k).or ((dictGetLast atg k).or
          (if k = "product_name" then some pn else Option.none))) ∧
      (∀ k, (dictGet d k).isSome = true ↔
        (k = "product_name" ∨ (dictGetLast atg k).isSome = true ∨
         (dictGetLast fw k).isSome = true)) := by
  refine ⟨dictUpdate (dictUpdate [("product_name", pn)] atg) fw, ?_, ?_, ?_⟩
  · unfold product_info
    rw [hl, h1, h2, h3]
  · intro k
    rw [dictGet_dictUpdate, dictGet_dictUpdate, dictGet_product_name_base]
  · intro k
    rw [dictGet_dictUpdate, dictGet_dictUpdate, dictGet_product_name_base]
    cases dictGetLast fw k <;> cases dictGetLast atg k <;>
      by_cases hk : k = "product_name" <;> simp [Option.or, hk]

/-- Witness for claim C9 at the concrete mock environment. -/
theorem product_info_flattens_witness :
    ∃ d : Dict, (product_info envOk []).1 = Except.ok (Value.dict d) ∧
      (∀ k, dictGet d k =
        (dictGetLast
          [("firmware_version", Value.str "2.50"),
           ("management_processor", Value.str "iLO4")] k).or
        ((dictGetLast [("asset_tag", Value.str "A-0001")] k).or
          (if k = "product_name" then some (Value.str "ProLiant DL380 Gen9")
           else Option.none))) ∧
      (∀ k, (dictGet d k).isSome = true ↔
        (k = "product_name" ∨
         (dictGetLast [("asset_tag", Value.str "A-0001")] k).isSome = true ∨
         (dictGetLast
           [("firmware_version", Value.str "2.50"),
            ("management_processor", Value.str "iLO4")] k).isSome = true)) :=
  product_info_flattens envOk [] clientDefault (Value.str "ProLiant DL380 Gen9")
    [("firmware_version", Value.str "2.50"),
     ("management_processor", Value.str "iLO4")]
    [("asset_tag", Value.str "A-0001")] rfl rfl rfl rfl

end SaltHpilo
